import Mathlib

/-!
Verification of the transport data plane (`rs/transport/src/data_plane.rs`).

The development shallowly embeds the frame codec (`pack_header` /
`unpack_header`), the chunked read path (`read_into_buffer`,
`read_one_message`) and the per-connection write/read task loops
(`spawn_write_task`, `spawn_read_task`) as pure Lean functions. Bytes are
`Nat` values below 256, machine-integer casts are explicit `% 2 ^ w`
truncations, socket reads are driven by an explicit outcome schedule, and
the task loops are run over a finite per-iteration schedule.
-/

namespace DataPlane

/-- Modelled from the spec: `TRANSPORT_HEADER_SIZE` lives in the crate's
`types.rs`, which is not part of the sampled sources; the spec fixes the
header at 8 bytes on the wire. -/
def TRANSPORT_HEADER_SIZE : Nat := 8

/-- Modelled from the spec: `TRANSPORT_FLAGS_IS_HEARTBEAT` lives in the
crate's `types.rs`, which is not part of the sampled sources; the spec says
bit 0 of the flags byte is the heartbeat flag. -/
def TRANSPORT_FLAGS_IS_HEARTBEAT : Nat := 1

/-- Size of read chunks (`SOCKET_READ_CHUNK_SIZE`, data_plane.rs line 61). -/
def SOCKET_READ_CHUNK_SIZE : Nat := 32 * 1024

/-- Heartbeat send interval in milliseconds, timeout on the sender side
(data_plane.rs line 64). -/
def TRANSPORT_HEARTBEAT_SEND_INTERVAL_MS : Nat := 200

/-- Heartbeat wait interval in milliseconds, timeout on the receiver side
(data_plane.rs line 66). -/
def TRANSPORT_HEARTBEAT_WAIT_INTERVAL_MS : Nat := 5000

/-- Modelled from the spec: `TransportHeader` lives in the crate's
`types.rs`, which is not part of the sampled sources; the spec gives the
fields: version (u8), flags (u8), reserved (u16), payload_length (u32,
little-endian on the wire). Fields are `Nat`s carrying the machine value. -/
structure TransportHeader where
  version : Nat
  flags : Nat
  reserved : Nat
  payload_length : Nat
  deriving Repr, DecidableEq

/-- A `TransportPayload` is an opaque byte buffer (`pub Vec<u8>`); bytes are
modelled as `Nat`s. -/
abbrev TransportPayload := List Nat

/-- Little-endian bytes of a `u16` value (`to_le_bytes`). -/
def u16_le_bytes (n : Nat) : List Nat :=
  [n % 256, n / 256 % 256]

/-- Little-endian bytes of a `u32` value (`to_le_bytes`). -/
def u32_le_bytes (n : Nat) : List Nat :=
  [n % 256, n / 256 % 256, n / 65536 % 256, n / 16777216 % 256]

/-- Value of a little-endian `u16` (`u16::from_le_bytes`). -/
def u16_from_le (b0 b1 : Nat) : Nat := b0 + 256 * b1

/-- Value of a little-endian `u32` (`u32::from_le_bytes`). -/
def u32_from_le (b0 b1 b2 b3 : Nat) : Nat :=
  b0 + 256 * b1 + 65536 * b2 + 16777216 * b3

/-- Embeds `pack_header` (data_plane.rs lines 73-95): header with version 0,
flags 0 or-ed with the heartbeat flag, reserved 0, and `payload_length` the
payload length cast to `u32` (hence the `% 2 ^ 32`), serialized as the
little-endian concatenation of the four fields. -/
def pack_header (payload : Option TransportPayload) (heartbeat : Bool) :
    List Nat :=
  let payload_length : Nat :=
    match payload with
    | some data => data.length % 2 ^ 32
    | none => 0
  let flags : Nat := if heartbeat then 0 ||| TRANSPORT_FLAGS_IS_HEARTBEAT else 0
  [0 % 256] ++ [flags % 256] ++ u16_le_bytes 0 ++ u32_le_bytes payload_length

/-- Embeds `unpack_header` (data_plane.rs lines 98-115): pure little-endian
field extraction from the first 8 bytes. The Rust function `split_at`s a
`Vec<u8>` the caller guarantees to hold at least 8 bytes; out-of-range
indices default to 0 here and are never exercised by the theorems. -/
def unpack_header (data : List Nat) : TransportHeader :=
  { version := data.getD 0 0
    flags := data.getD 1 0
    reserved := u16_from_le (data.getD 2 0) (data.getD 3 0)
    payload_length :=
      u32_from_le (data.getD 4 0) (data.getD 5 0) (data.getD 6 0)
        (data.getD 7 0) }

/-- Modelled from the spec: `StreamReadError` lives in the crate's
`types.rs`, which is not part of the sampled sources; the spec's error
taxonomy distinguishes a read timeout from an underlying I/O failure, and
`read_into_buffer` (data_plane.rs lines 319-330) constructs exactly the two
variants `TimeOut` and `Failed`. -/
inductive StreamReadError where
  | TimeOut
  | Failed
  deriving Repr, DecidableEq

/-- Outcome of one socket read attempt, as seen through
`tokio::time::timeout(timeout, read_exact)`: the bytes arrive in time, the
timeout elapses first, or the stream reports an I/O error. -/
inductive ReadOutcome where
  | ready
  | timedOut
  | ioError
  deriving Repr, DecidableEq

/-- The read half of a connection: a schedule of per-read outcomes (an empty
schedule means every read is `ready`), the bytes available on the stream,
and a trace of the byte counts requested by each completed read call. -/
structure Stream where
  outcomes : List ReadOutcome
  bytes : List Nat
  reads : List Nat
  deriving Repr, DecidableEq

/-- Embeds `read_into_buffer` (data_plane.rs lines 319-330): `read_exact`
for `n` bytes raced against the timeout. An elapsed timeout maps to
`StreamReadError::TimeOut`; an I/O error — including `read_exact` hitting
end-of-stream before `n` bytes — maps to `StreamReadError::Failed`;
otherwise exactly `n` bytes are consumed and the read is appended to the
trace. -/
def read_into_buffer (s : Stream) (n : Nat) :
    Except StreamReadError (List Nat × Stream) :=
  match s.outcomes with
  | ReadOutcome.timedOut :: _ => .error .TimeOut
  | ReadOutcome.ioError :: _ => .error .Failed
  | ReadOutcome.ready :: os =>
    if n ≤ s.bytes.length then
      .ok (s.bytes.take n, ⟨os, s.bytes.drop n, s.reads ++ [n]⟩)
    else .error .Failed
  | [] =>
    if n ≤ s.bytes.length then
      .ok (s.bytes.take n, ⟨[], s.bytes.drop n, s.reads ++ [n]⟩)
    else .error .Failed

/-- Embeds the payload chunk loop of `read_one_message` (data_plane.rs lines
296-312): while bytes remain, read `min remaining SOCKET_READ_CHUNK_SIZE`
bytes into the payload buffer at the current offset. The buffer written by
offset ranges in Rust is modelled by the accumulator `acc`. -/
def read_chunks (s : Stream) (remaining : Nat) (acc : List Nat) :
    Except StreamReadError (List Nat × Stream) :=
  if remaining = 0 then .ok (acc, s)
  else
    let cur_chunk_size := min remaining SOCKET_READ_CHUNK_SIZE
    match read_into_buffer s cur_chunk_size with
    | .error e => .error e
    | .ok (chunk, s') => read_chunks s' (remaining - cur_chunk_size) (acc ++ chunk)
termination_by remaining
decreasing_by
  simp only [SOCKET_READ_CHUNK_SIZE]
  omega

/-- Embeds `read_one_message` (data_plane.rs lines 284-316): read the 8
header bytes, decode them, return an empty default payload when the
heartbeat flag is set, otherwise read `payload_length` bytes in chunks. -/
def read_one_message (s : Stream) :
    Except StreamReadError (TransportHeader × TransportPayload × Stream) :=
  match read_into_buffer s TRANSPORT_HEADER_SIZE with
  | .error e => .error e
  | .ok (header_buffer, s1) =>
    let header := unpack_header header_buffer
    if header.flags &&& TRANSPORT_FLAGS_IS_HEARTBEAT ≠ 0 then
      .ok (header, [], s1)
    else
      match read_chunks s1 header.payload_length [] with
      | .error e => .error e
      | .ok (payload, s2) => .ok (header, payload, s2)

/-- One potential iteration of the write task loop: whether
`weak_self.upgrade()` succeeds at the top of the iteration, the payloads the
`dequeue` call returns, and whether `write_one_message` (the write plus the
flush) succeeds on this iteration. -/
structure WriteIter where
  managerAlive : Bool
  dequeued : List TransportPayload
  writeOk : Bool
  deriving Repr, DecidableEq

/-- An operation completed on the write half of the connection: a `write_all`
of a byte buffer, or a `flush`. -/
inductive WireOp where
  | write (bytes : List Nat)
  | flush
  deriving Repr, DecidableEq

/-- How a finite run of the write task loop ended: the simulated schedule was
exhausted with the task still looping, the weak manager reference failed to
upgrade, or a write error made the task disconnect and return. -/
inductive WriteExit where
  | scheduleOver
  | managerGone
  | disconnected
  deriving Repr, DecidableEq

/-- Observable effects of a finite run of the write task loop: the buffers
passed to `write_one_message` in call order, the completed stream
operations, the number of `heart_beats_sent` counter increments, and the
`on_disconnect(peer_id, channel_id)` calls. -/
structure WriteEffects where
  attempts : List (List Nat)
  ops : List WireOp
  heartbeats : Nat
  disconnects : List (Nat × Nat)
  exit : WriteExit
  deriving Repr, DecidableEq

/-- Embeds `write_one_message` (data_plane.rs lines 189-195):
`write_all(&bytes_to_send)` followed by `flush()`. The writer's I/O outcome
for this call is modelled by `ok`; on success the two completed operations
are returned, on failure the `io::Error` propagates. -/
def write_one_message (ok : Bool) (bytes_to_send : List Nat) :
    Except Unit (List WireOp) :=
  if ok then .ok [WireOp.write bytes_to_send, WireOp.flush] else .error ()

/-- Embeds the loop body of `spawn_write_task` (data_plane.rs lines
129-186), run over a finite schedule of iterations. Each iteration: if the
weak reference no longer upgrades, exit the loop; otherwise dequeue; if
nothing was dequeued build a heartbeat frame and bump the heartbeat
counter, else append header and payload of every dequeued item in order to
`bytes_to_send`; then call `write_one_message`, and on error call
`on_disconnect(peer_id, channel_id)` and return. -/
def write_task_run (peer_id channel_id : Nat) :
    List WriteIter → WriteEffects
  | [] => ⟨[], [], 0, [], .scheduleOver⟩
  | it :: rest =>
    if it.managerAlive then
      let bytes_to_send : List Nat :=
        if it.dequeued.isEmpty then
          pack_header none true
        else
          it.dequeued.foldl
            (fun acc payload => acc ++ pack_header (some payload) false ++ payload) []
      let hb : Nat := if it.dequeued.isEmpty then 1 else 0
      match write_one_message it.writeOk bytes_to_send with
      | .error _ => ⟨[bytes_to_send], [], hb, [(peer_id, channel_id)], .disconnected⟩
      | .ok ops1 =>
        let e := write_task_run peer_id channel_id rest
        ⟨bytes_to_send :: e.attempts, ops1 ++ e.ops, hb + e.heartbeats,
          e.disconnects, e.exit⟩
    else ⟨[], [], 0, [], .managerGone⟩

/-- How a finite run of the read task loop ended: schedule exhausted with
the task still looping, weak manager reference failed to upgrade, a read
error made the task disconnect and return, or the `expect` on an event
handler error aborted the task. -/
inductive ReadExit where
  | scheduleOver
  | managerGone
  | disconnected
  | panicked
  deriving Repr, DecidableEq

/-- Observable effects of a finite run of the read task loop: the
`(peer_id, payload)` messages passed to the event handler in order, the
number of `heart_beats_received` counter increments, the
`on_disconnect(peer_id, channel_id)` calls, and how the run ended. -/
structure ReadEffects where
  delivered : List (Nat × TransportPayload)
  heartbeatsReceived : Nat
  disconnects : List (Nat × Nat)
  exit : ReadExit
  deriving Repr, DecidableEq

/-- Embeds the loop body of `spawn_read_task` (data_plane.rs lines 208-278),
run for at most `alive.length` iterations; `alive` gives the per-iteration
result of `weak_self.upgrade()` and `handlers` the outcome of each event
handler call (an exhausted `handlers` schedule means the handler keeps
succeeding). Each iteration: if the weak reference no longer upgrades, exit
the loop; otherwise `read_one_message`; on error call
`on_disconnect(peer_id, channel_id)` and return; on a heartbeat bump the
heartbeat counter and continue; otherwise deliver the message to the event
handler, and if the handler errors the `expect` panics the task. -/
def read_task_run (peer_id channel_id : Nat) :
    List Bool → List Bool → Stream → ReadEffects
  | [], _, _ => ⟨[], 0, [], .scheduleOver⟩
  | alive :: restAlive, handlers, s =>
    if alive then
      match read_one_message s with
      | .error _ => ⟨[], 0, [(peer_id, channel_id)], .disconnected⟩
      | .ok (header, payload, s') =>
        if header.flags &&& TRANSPORT_FLAGS_IS_HEARTBEAT ≠ 0 then
          let e := read_task_run peer_id channel_id restAlive handlers s'
          ⟨e.delivered, e.heartbeatsReceived + 1, e.disconnects, e.exit⟩
        else
          match handlers with
          | false :: _ => ⟨[(peer_id, payload)], 0, [], .panicked⟩
          | true :: hs =>
            let e := read_task_run peer_id channel_id restAlive hs s'
            ⟨(peer_id, payload) :: e.delivered, e.heartbeatsReceived,
              e.disconnects, e.exit⟩
          | [] =>
            let e := read_task_run peer_id channel_id restAlive [] s'
            ⟨(peer_id, payload) :: e.delivered, e.heartbeatsReceived,
              e.disconnects, e.exit⟩
    else ⟨[], 0, [], .managerGone⟩

/-- Spec-side description of one aggregated drain: the concatenation
`encode(Some(A), false) ++ A ++ encode(Some(B), false) ++ B ++ ...` of the
dequeued payloads in dequeue order, against which the buffer built by the
write task loop is compared. -/
def encode_frames (ps : List TransportPayload) : List Nat :=
  (ps.map (fun p => pack_header (some p) false ++ p)).flatten

/-- The sequence of chunk sizes `read_one_message` uses for a payload of
`n` bytes: while bytes remain, the next chunk is
`min remaining SOCKET_READ_CHUNK_SIZE`. -/
def chunkSizes (n : Nat) : List Nat :=
  if n = 0 then []
  else
    min n SOCKET_READ_CHUNK_SIZE ::
      chunkSizes (n - min n SOCKET_READ_CHUNK_SIZE)
termination_by n
decreasing_by
  simp only [SOCKET_READ_CHUNK_SIZE]
  omega

/-- A concrete payload of `2 ^ 32` zero bytes, whose length overflows the
`u32` length field of the header. -/
def oversizedPayload : TransportPayload := List.replicate 4294967296 0

theorem oversizedPayload_length : oversizedPayload.length = 4294967296 :=
  List.length_replicate 4294967296 0

theorem pack_header_length (payload : Option TransportPayload)
    (heartbeat : Bool) :
    (pack_header payload heartbeat).length = TRANSPORT_HEADER_SIZE := by
  cases payload <;>
    simp [pack_header, u16_le_bytes, u32_le_bytes, TRANSPORT_HEADER_SIZE]

theorem u32_roundtrip (n : Nat) (h : n < 2 ^ 32) :
    u32_from_le (n % 256) (n / 256 % 256) (n / 65536 % 256)
      (n / 16777216 % 256) = n := by
  unfold u32_from_le
  omega

/-- Decoding the first 8 bytes of a non-heartbeat header built by
`pack_header`, followed by any byte sequence, recovers version 0, flags 0,
reserved 0, and the payload length truncated by the `usize → u32` cast. -/
theorem unpack_pack_frame (P : TransportPayload) (X : List Nat) :
    unpack_header (List.take 8 (pack_header (some P) false ++ X)) =
      { version := 0, flags := 0, reserved := 0,
        payload_length := P.length % 2 ^ 32 } := by
  have hlt : P.length % 2 ^ 32 < 2 ^ 32 := Nat.mod_lt _ (by norm_num)
  simp only [pack_header, u16_le_bytes, u32_le_bytes, List.cons_append,
    List.nil_append, List.singleton_append, List.take_succ_cons,
    List.take_zero, unpack_header, List.getD_cons_zero, List.getD_cons_succ,
    TransportHeader.mk.injEq, u16_from_le, u32_from_le]
  norm_num
  omega

/-- Abbreviation of `unpack_pack_frame` for a frame whose trailing bytes
are exactly the payload. -/
theorem unpack_pack_data (P : TransportPayload) :
    unpack_header (List.take 8 (pack_header (some P) false ++ P)) =
      { version := 0, flags := 0, reserved := 0,
        payload_length := P.length % 2 ^ 32 } :=
  unpack_pack_frame P P

/-- The bytes of a non-heartbeat header followed by any byte sequence,
after the 8-byte header is dropped, are exactly that byte sequence. -/
theorem drop_pack_frame (P : TransportPayload) (X : List Nat) :
    List.drop 8 (pack_header (some P) false ++ X) = X := by
  simp [pack_header, u16_le_bytes, u32_le_bytes]

/-- The bytes of a non-heartbeat frame after its 8-byte header are exactly
the payload. -/
theorem drop_pack_data (P : TransportPayload) :
    List.drop 8 (pack_header (some P) false ++ P) = P :=
  drop_pack_frame P P

/-- C1 counterexample: the claim quantifies over every payload byte
sequence, but `pack_header` stores the payload length through a `usize → u32`
cast; the `2 ^ 32`-byte payload `oversizedPayload` is encoded with
`payload_length = 0`, so decoding the first 8 bytes of its frame does not
recover its length. -/
theorem c1_roundtrip_counterexample :
    (unpack_header (List.take 8
      (pack_header (some oversizedPayload) false ++
        oversizedPayload))).payload_length ≠
      oversizedPayload.length := by
  rw [unpack_pack_data, oversizedPayload_length]
  norm_num

/-- C1 (amended with `len(P) < 2 ^ 32`): for every payload byte sequence `P`
shorter than `2 ^ 32` bytes, decoding the first 8 bytes of
`pack_header(Some(P), false) ++ P` yields `payload_length = len(P)` with the
heartbeat flag bit clear, and the bytes after the header are exactly `P`. -/
theorem c1_roundtrip (P : TransportPayload) (h : P.length < 2 ^ 32) :
    (unpack_header (List.take 8
        (pack_header (some P) false ++ P))).payload_length = P.length ∧
    (unpack_header (List.take 8 (pack_header (some P) false ++ P))).flags &&&
        TRANSPORT_FLAGS_IS_HEARTBEAT = 0 ∧
    List.drop 8 (pack_header (some P) false ++ P) = P := by
  rw [unpack_pack_data, drop_pack_data]
  exact ⟨Nat.mod_eq_of_lt h, by simp [TRANSPORT_FLAGS_IS_HEARTBEAT], rfl⟩

/-- C1 witness: the amended round-trip instantiated at the concrete payload
`[10, 20, 30]`. -/
theorem c1_roundtrip_witness :
    ([10, 20, 30] : TransportPayload).length < 2 ^ 32 ∧
    ((unpack_header (List.take 8
        (pack_header (some [10, 20, 30]) false ++
          [10, 20, 30]))).payload_length = 3 ∧
      (unpack_header (List.take 8
          (pack_header (some [10, 20, 30]) false ++ [10, 20, 30]))).flags &&&
        TRANSPORT_FLAGS_IS_HEARTBEAT = 0 ∧
      List.drop 8 (pack_header (some [10, 20, 30]) false ++ [10, 20, 30]) =
        [10, 20, 30]) :=
  ⟨by decide, c1_roundtrip [10, 20, 30] (by decide)⟩

/-- C5: `pack_header(None, true)` is exactly 8 bytes whose decoded header
has the heartbeat flag bit set and `payload_length = 0`, the whole frame
carrying no payload bytes; and on any stream starting with such a frame,
`read_one_message` returns the decoded header with an empty payload after a
single 8-byte read, consuming no payload bytes. -/
theorem c5_heartbeat_framing :
    (pack_header none true).length = 8 ∧
    (unpack_header (pack_header none true)).flags &&&
        TRANSPORT_FLAGS_IS_HEARTBEAT ≠ 0 ∧
    (unpack_header (pack_header none true)).payload_length = 0 ∧
    ∀ (rest r : List Nat),
      read_one_message ⟨[], pack_header none true ++ rest, r⟩ =
        .ok (⟨0, TRANSPORT_FLAGS_IS_HEARTBEAT, 0, 0⟩, [], ⟨[], rest, r ++ [8]⟩) := by
  refine ⟨by decide, by decide, by decide, ?_⟩
  intro rest r
  simp [read_one_message, read_into_buffer, pack_header, unpack_header,
    u16_le_bytes, u32_le_bytes, u16_from_le, u32_from_le,
    TRANSPORT_HEADER_SIZE, TRANSPORT_FLAGS_IS_HEARTBEAT]

/-- The write task's aggregation fold equals appending the concatenated
frames to the accumulator. -/
theorem foldl_encode_frames (ps : List TransportPayload) (acc : List Nat) :
    ps.foldl (fun acc payload =>
        acc ++ (pack_header (some payload) false ++ payload)) acc =
      acc ++ encode_frames ps := by
  induction ps generalizing acc with
  | nil => simp [encode_frames]
  | cons p ps ih =>
    rw [List.foldl_cons, ih]
    simp [encode_frames]

/-- C2: an iteration of the write task whose dequeue returns the non-empty
payload sequence `it.dequeued` builds the single buffer
`encode_frames it.dequeued` — header and payload of each dequeued item,
contiguous and in dequeue order — and issues exactly one write of that
buffer followed by a flush, before any effect of later iterations. -/
theorem c2_aggregation_order (peer_id channel_id : Nat) (it : WriteIter)
    (rest : List WriteIter) (h1 : it.managerAlive = true)
    (h2 : it.dequeued ≠ []) (h3 : it.writeOk = true) :
    (write_task_run peer_id channel_id (it :: rest)).attempts =
      encode_frames it.dequeued ::
        (write_task_run peer_id channel_id rest).attempts ∧
    (write_task_run peer_id channel_id (it :: rest)).ops =
      WireOp.write (encode_frames it.dequeued) :: WireOp.flush ::
        (write_task_run peer_id channel_id rest).ops := by
  have hne : it.dequeued.isEmpty = false := by
    simpa using h2
  simp [write_task_run, h1, h3, hne, write_one_message, foldl_encode_frames]

/-- C2 witness: the aggregation theorem instantiated at a drain of the two
payloads `[1, 2]` and `[3]`. -/
theorem c2_aggregation_order_witness :
    (write_task_run 1 2 [⟨true, [[1, 2], [3]], true⟩]).attempts =
      encode_frames [[1, 2], [3]] :: (write_task_run 1 2 []).attempts ∧
    (write_task_run 1 2 [⟨true, [[1, 2], [3]], true⟩]).ops =
      WireOp.write (encode_frames [[1, 2], [3]]) :: WireOp.flush ::
        (write_task_run 1 2 []).ops :=
  c2_aggregation_order 1 2 ⟨true, [[1, 2], [3]], true⟩ [] rfl (by simp) rfl

/-- C3: when every earlier iteration succeeds and the write (or flush) of
iteration `good.length` fails, the write task calls the disconnect callback
exactly once with this connection's peer and channel identifiers, issues no
write after the failing iteration, and terminates with no retry. -/
theorem c3_disconnect_on_write_error (peer_id channel_id : Nat)
    (good : List WriteIter) (bad : WriteIter) (rest : List WriteIter)
    (hg : ∀ it ∈ good, it.managerAlive = true ∧ it.writeOk = true)
    (hb1 : bad.managerAlive = true) (hb2 : bad.writeOk = false) :
    (write_task_run peer_id channel_id (good ++ bad :: rest)).disconnects =
      [(peer_id, channel_id)] ∧
    (write_task_run peer_id channel_id (good ++ bad :: rest)).attempts.length =
      good.length + 1 ∧
    (write_task_run peer_id channel_id (good ++ bad :: rest)).exit =
      WriteExit.disconnected := by
  induction good with
  | nil => simp [write_task_run, hb1, hb2, write_one_message]
  | cons it good ih =>
    have h1 := (hg it (by simp)).1
    have h3 := (hg it (by simp)).2
    have ih' := ih fun x hx => hg x (by simp [hx])
    simp only [List.cons_append, write_task_run, h1, h3, write_one_message,
      if_true, List.length_cons]
    simp only [write_one_message, if_true] at ih' ⊢
    refine ⟨ih'.1, ?_, ih'.2.2⟩
    simp [ih'.2.1]

/-- C3 witness: one successful iteration, then a failing write, then a
further scheduled iteration that is never reached. -/
theorem c3_disconnect_on_write_error_witness :
    (write_task_run 3 4
        ([⟨true, [[9]], true⟩] ++ ⟨true, [[7]], false⟩ ::
          [⟨true, [[8]], true⟩])).disconnects = [(3, 4)] ∧
    (write_task_run 3 4
        ([⟨true, [[9]], true⟩] ++ ⟨true, [[7]], false⟩ ::
          [⟨true, [[8]], true⟩])).attempts.length = 1 + 1 ∧
    (write_task_run 3 4
        ([⟨true, [[9]], true⟩] ++ ⟨true, [[7]], false⟩ ::
          [⟨true, [[8]], true⟩])).exit = WriteExit.disconnected :=
  c3_disconnect_on_write_error 3 4 [⟨true, [[9]], true⟩] ⟨true, [[7]], false⟩
    [⟨true, [[8]], true⟩] (by simp) rfl rfl

/-- C6: an iteration of the write task whose dequeue returns nothing sends
exactly one heartbeat frame — the 8-byte header alone — and increments the
heartbeats-sent counter by exactly 1; no data frame is written in that
iteration. -/
theorem c6_idle_heartbeat (peer_id channel_id : Nat) (it : WriteIter)
    (rest : List WriteIter) (h1 : it.managerAlive = true)
    (h2 : it.dequeued = []) (h3 : it.writeOk = true) :
    (write_task_run peer_id channel_id (it :: rest)).attempts =
      pack_header none true ::
        (write_task_run peer_id channel_id rest).attempts ∧
    (write_task_run peer_id channel_id (it :: rest)).heartbeats =
      (write_task_run peer_id channel_id rest).heartbeats + 1 ∧
    (write_task_run peer_id channel_id (it :: rest)).ops =
      WireOp.write (pack_header none true) :: WireOp.flush ::
        (write_task_run peer_id channel_id rest).ops := by
  simp [write_task_run, h1, h2, h3, write_one_message, Nat.add_comm]

/-- C6 witness: the idle-queue heartbeat theorem instantiated at an empty
dequeue followed by a further scheduled iteration. -/
theorem c6_idle_heartbeat_witness :
    (write_task_run 5 6 [⟨true, [], true⟩, ⟨true, [[2]], true⟩]).attempts =
      pack_header none true ::
        (write_task_run 5 6 [⟨true, [[2]], true⟩]).attempts ∧
    (write_task_run 5 6 [⟨true, [], true⟩, ⟨true, [[2]], true⟩]).heartbeats =
      (write_task_run 5 6 [⟨true, [[2]], true⟩]).heartbeats + 1 ∧
    (write_task_run 5 6 [⟨true, [], true⟩, ⟨true, [[2]], true⟩]).ops =
      WireOp.write (pack_header none true) :: WireOp.flush ::
        (write_task_run 5 6 [⟨true, [[2]], true⟩]).ops :=
  c6_idle_heartbeat 5 6 ⟨true, [], true⟩ [⟨true, [[2]], true⟩] rfl rfl rfl

/-- C9: on any iteration at which the weak manager reference no longer
upgrades, both the write task and the read task exit their loops cleanly at
that loop boundary, with no write, no delivery, no disconnect callback, and
no panic. -/
theorem c9_manager_gone_clean_exit (peer_id channel_id : Nat)
    (dequeued : List TransportPayload) (writeOk : Bool)
    (restW : List WriteIter) (restAlive handlers : List Bool) (s : Stream) :
    write_task_run peer_id channel_id
        (⟨false, dequeued, writeOk⟩ :: restW) =
      ⟨[], [], 0, [], WriteExit.managerGone⟩ ∧
    read_task_run peer_id channel_id (false :: restAlive) handlers s =
      ⟨[], 0, [], ReadExit.managerGone⟩ := by
  constructor <;> simp [write_task_run, read_task_run]

/-- On a stream with an all-`ready` outcome schedule holding `body ++ rest`,
the chunk loop with `body.length` bytes remaining consumes exactly `body`,
appends it to the accumulator, and performs reads of sizes
`chunkSizes body.length`. -/
theorem read_chunks_exact (n : Nat) :
    ∀ (body rest rs acc : List Nat), body.length = n →
      read_chunks ⟨[], body ++ rest, rs⟩ n acc =
        .ok (acc ++ body, ⟨[], rest, rs ++ chunkSizes n⟩) := by
  induction n using Nat.strong_induction_on with
  | _ n ih =>
    intro body rest rs acc hlen
    by_cases h0 : n = 0
    · subst h0
      have hb : body = [] := List.eq_nil_of_length_eq_zero hlen
      subst hb
      rw [read_chunks, chunkSizes]
      simp
    · have hC : 0 < SOCKET_READ_CHUNK_SIZE := by
        simp [SOCKET_READ_CHUNK_SIZE]
      have hcur_pos : 0 < min n SOCKET_READ_CHUNK_SIZE := by
        omega
      have hcur_le : min n SOCKET_READ_CHUNK_SIZE ≤ n := Nat.min_le_left _ _
      rw [read_chunks, if_neg h0, chunkSizes, if_neg h0]
      have hle : min n SOCKET_READ_CHUNK_SIZE ≤ (body ++ rest).length := by
        rw [List.length_append, hlen]
        omega
      simp only [read_into_buffer, if_pos hle]
      have htake : (body ++ rest).take (min n SOCKET_READ_CHUNK_SIZE) =
          body.take (min n SOCKET_READ_CHUNK_SIZE) :=
        List.take_append_of_le_length (by omega)
      have hdrop : (body ++ rest).drop (min n SOCKET_READ_CHUNK_SIZE) =
          body.drop (min n SOCKET_READ_CHUNK_SIZE) ++ rest :=
        List.drop_append_of_le_length (by omega)
      rw [htake, hdrop,
        ih (n - min n SOCKET_READ_CHUNK_SIZE) (by omega)
          (body.drop (min n SOCKET_READ_CHUNK_SIZE)) rest
          (rs ++ [min n SOCKET_READ_CHUNK_SIZE])
          (acc ++ body.take (min n SOCKET_READ_CHUNK_SIZE))
          (by rw [List.length_drop, hlen])]
      simp [List.append_assoc]

/-- When the payload length is not a multiple of the chunk size, the last
chunk of the read loop is exactly the remainder `n % SOCKET_READ_CHUNK_SIZE`. -/
theorem chunkSizes_getLast_of_mod_ne_zero (n : Nat) :
    0 < n → n % SOCKET_READ_CHUNK_SIZE ≠ 0 →
    (chunkSizes n).getLast? = some (n % SOCKET_READ_CHUNK_SIZE) := by
  induction n using Nat.strong_induction_on with
  | _ n ih =>
    intro hpos hmod
    rw [chunkSizes, if_neg (by omega)]
    by_cases hle : n ≤ SOCKET_READ_CHUNK_SIZE
    · have hmin : min n SOCKET_READ_CHUNK_SIZE = n := by omega
      rw [hmin, Nat.sub_self, chunkSizes, if_pos rfl]
      rcases Nat.lt_or_ge n SOCKET_READ_CHUNK_SIZE with hlt | hge
      · rw [Nat.mod_eq_of_lt hlt]
        rfl
      · exfalso
        have : n = SOCKET_READ_CHUNK_SIZE := by omega
        exact hmod (by rw [this, Nat.mod_self])
    · have hC : 0 < SOCKET_READ_CHUNK_SIZE := by
        simp [SOCKET_READ_CHUNK_SIZE]
      have hmin : min n SOCKET_READ_CHUNK_SIZE = SOCKET_READ_CHUNK_SIZE := by
        omega
      rw [hmin]
      have hmod2 : (n - SOCKET_READ_CHUNK_SIZE) % SOCKET_READ_CHUNK_SIZE ≠ 0 := by
        rw [← Nat.mod_eq_sub_mod (by omega)]
        exact hmod
      have ihr := ih (n - SOCKET_READ_CHUNK_SIZE) (by omega) (by omega) hmod2
      cases hc : chunkSizes (n - SOCKET_READ_CHUNK_SIZE) with
      | nil =>
        rw [hc] at ihr
        simp at ihr
      | cons a l =>
        rw [hc] at ihr
        rw [List.getLast?_cons_cons, ihr,
          ← Nat.mod_eq_sub_mod (by omega : n ≥ SOCKET_READ_CHUNK_SIZE)]

/-- On a stream with an all-`ready` outcome schedule starting with a
non-heartbeat frame for `body` (with `body.length < 2 ^ 32`), followed by
`rest`, `read_one_message` returns the decoded header and exactly `body`,
leaving `rest` on the stream, with an 8-byte header read followed by reads
of sizes `chunkSizes body.length`. -/
theorem read_one_message_data (body rest r : List Nat)
    (h : body.length < 2 ^ 32) :
    read_one_message ⟨[], pack_header (some body) false ++ (body ++ rest), r⟩ =
      .ok (⟨0, 0, 0, body.length⟩, body,
        ⟨[], rest, r ++ (8 :: chunkSizes body.length)⟩) := by
  have h8 : (8 : Nat) ≤ (pack_header (some body) false ++ (body ++ rest)).length := by
    rw [List.length_append, pack_header_length]
    simp [TRANSPORT_HEADER_SIZE]
  have hmod : body.length % 2 ^ 32 = body.length := Nat.mod_eq_of_lt h
  simp only [read_one_message, read_into_buffer, TRANSPORT_HEADER_SIZE,
    if_pos h8]
  rw [unpack_pack_frame body (body ++ rest), drop_pack_frame body (body ++ rest)]
  simp only [hmod, TRANSPORT_FLAGS_IS_HEARTBEAT]
  rw [read_chunks_exact body.length body rest (r ++ [8]) [] rfl]
  simp

/-- C4: a read whose first scheduled outcome is an elapsed timeout makes
`read_one_message` return the timeout-classified error — a value distinct
from the I/O-failure classification — and the read task then calls the
disconnect callback exactly once with this connection's peer and channel
identifiers and terminates. -/
theorem c4_read_timeout_disconnect (peer_id channel_id : Nat)
    (os : List ReadOutcome) (bs rs : List Nat)
    (restAlive handlers : List Bool) :
    read_one_message ⟨ReadOutcome.timedOut :: os, bs, rs⟩ =
      .error StreamReadError.TimeOut ∧
    StreamReadError.TimeOut ≠ StreamReadError.Failed ∧
    read_task_run peer_id channel_id (true :: restAlive) handlers
        ⟨ReadOutcome.timedOut :: os, bs, rs⟩ =
      ⟨[], 0, [(peer_id, channel_id)], ReadExit.disconnected⟩ := by
  refine ⟨?_, by simp, ?_⟩ <;>
    simp [read_task_run, read_one_message, read_into_buffer]

/-- C7: for a non-heartbeat frame with payload length `body.length`, the
read path performs chunk reads of exactly `min remaining
SOCKET_READ_CHUNK_SIZE` bytes (the trace after the 8-byte header read is
`chunkSizes body.length`, each entry being that minimum by definition, with
the last chunk exactly the remainder), and the assembled payload is exactly
`body`, bit-for-bit in order. -/
theorem c7_chunked_reassembly (body rest r : List Nat)
    (h : body.length < 2 ^ 32) :
    read_one_message ⟨[], pack_header (some body) false ++ (body ++ rest), r⟩ =
      .ok (⟨0, 0, 0, body.length⟩, body,
        ⟨[], rest, r ++ (8 :: chunkSizes body.length)⟩) ∧
    (∀ m : Nat, m ≠ 0 → chunkSizes m =
      min m SOCKET_READ_CHUNK_SIZE ::
        chunkSizes (m - min m SOCKET_READ_CHUNK_SIZE)) ∧
    (SOCKET_READ_CHUNK_SIZE < body.length →
      body.length % SOCKET_READ_CHUNK_SIZE ≠ 0 →
      (chunkSizes body.length).getLast? =
        some (body.length % SOCKET_READ_CHUNK_SIZE)) := by
  refine ⟨read_one_message_data body rest r h, ?_, ?_⟩
  · intro m hm
    rw [chunkSizes, if_neg hm]
  · intro hgt hmod
    exact chunkSizes_getLast_of_mod_ne_zero body.length (by omega) hmod

/-- C7 witness: the chunked-reassembly theorem instantiated at the payload
`[1, 2, 3]` with `[4]` left on the stream. -/
theorem c7_chunked_reassembly_witness :
    ([1, 2, 3] : List Nat).length < 2 ^ 32 ∧
    (read_one_message
        ⟨[], pack_header (some [1, 2, 3]) false ++ ([1, 2, 3] ++ [4]), []⟩ =
        .ok (⟨0, 0, 0, ([1, 2, 3] : List Nat).length⟩, [1, 2, 3],
          ⟨[], [4], [] ++ (8 :: chunkSizes ([1, 2, 3] : List Nat).length)⟩) ∧
      (∀ m : Nat, m ≠ 0 → chunkSizes m =
        min m SOCKET_READ_CHUNK_SIZE ::
          chunkSizes (m - min m SOCKET_READ_CHUNK_SIZE)) ∧
      (SOCKET_READ_CHUNK_SIZE < ([1, 2, 3] : List Nat).length →
        ([1, 2, 3] : List Nat).length % SOCKET_READ_CHUNK_SIZE ≠ 0 →
        (chunkSizes ([1, 2, 3] : List Nat).length).getLast? =
          some (([1, 2, 3] : List Nat).length % SOCKET_READ_CHUNK_SIZE))) :=
  ⟨by decide, c7_chunked_reassembly [1, 2, 3] [4] [] (by decide)⟩

/-- C8: when the event handler errors on a delivered data frame, the read
task panics — it neither calls the disconnect callback nor continues the
read loop. -/
theorem c8_handler_error_panics (peer_id channel_id : Nat)
    (body rest r : List Nat) (restAlive hs : List Bool)
    (h : body.length < 2 ^ 32) :
    read_task_run peer_id channel_id (true :: restAlive) (false :: hs)
        ⟨[], pack_header (some body) false ++ (body ++ rest), r⟩ =
      ⟨[(peer_id, body)], 0, [], ReadExit.panicked⟩ := by
  simp [read_task_run, read_one_message_data body rest r h,
    TRANSPORT_FLAGS_IS_HEARTBEAT]

/-- C8 witness: a one-frame stream whose handler fails on the first
delivery. -/
theorem c8_handler_error_panics_witness :
    ([9] : List Nat).length < 2 ^ 32 ∧
    read_task_run 1 2 (true :: [true]) (false :: [])
        ⟨[], pack_header (some [9]) false ++ ([9] ++ [3]), []⟩ =
      ⟨[(1, [9])], 0, [], ReadExit.panicked⟩ :=
  ⟨by decide, c8_handler_error_panics 1 2 [9] [3] [] [true] [] (by decide)⟩

/-- C10: on receipt of any header whose heartbeat flag bit is set,
`read_one_message` returns successfully with the empty default payload
after the single 8-byte header read, consuming no payload bytes — even when
the header's `payload_length` field is nonzero; the heartbeat discriminant
alone decides whether payload bytes are read. -/
theorem c10_heartbeat_ignores_length (b0 b1 b2 b3 b4 b5 b6 b7 : Nat)
    (rest r : List Nat) (hb : b1 &&& TRANSPORT_FLAGS_IS_HEARTBEAT ≠ 0) :
    read_one_message
        ⟨[], b0 :: b1 :: b2 :: b3 :: b4 :: b5 :: b6 :: b7 :: rest, r⟩ =
      .ok (⟨b0, b1, u16_from_le b2 b3, u32_from_le b4 b5 b6 b7⟩, [],
        ⟨[], rest, r ++ [8]⟩) := by
  have h8 : (8 : Nat) ≤
      (b0 :: b1 :: b2 :: b3 :: b4 :: b5 :: b6 :: b7 :: rest).length := by
    simp
  simp [read_one_message, read_into_buffer, TRANSPORT_HEADER_SIZE, h8,
    unpack_header, hb]

/-- C10 witness: a received heartbeat header carrying the nonzero
`payload_length` field 5 still yields an empty payload, and the 2 bytes
after the header stay unread on the stream. -/
theorem c10_heartbeat_ignores_length_witness :
    (1 : Nat) &&& TRANSPORT_FLAGS_IS_HEARTBEAT ≠ 0 ∧
    read_one_message ⟨[], 0 :: 1 :: 0 :: 0 :: 5 :: 0 :: 0 :: 0 :: [7, 9], []⟩ =
      .ok (⟨0, 1, u16_from_le 0 0, u32_from_le 5 0 0 0⟩, [],
        ⟨[], [7, 9], [] ++ [8]⟩) :=
  ⟨by decide,
    c10_heartbeat_ignores_length 0 1 0 0 5 0 0 0 [7, 9] [] (by decide)⟩

end DataPlane
